import Mathlib

/-!
Shallow embedding of the Genfy front-end (api-client and the two
session-context variants), written from the TypeScript sources.
All code under scrutiny is client-side ("use client"), so the browser
environment is modelled as present: the typeof-window-undefined guards
in api-client.ts take their browser branch.
-/

namespace Genfy

/-! Durable client-side state: two string slots in localStorage,
keyed by the fixed keys user and session_id. -/

/-- LocalStorage restricted to the two keys the code uses. -/
structure LocalStorage where
  user : Option String
  session_id : Option String
deriving DecidableEq, Repr

/-- Browser state visible to api-client.ts: storage plus location.href. -/
structure Browser where
  storage : LocalStorage
  location : String
deriving DecidableEq, Repr

/-! Types from src/frontend/lib/api-client.ts. -/

/-- Role of a chat message. -/
inductive Role where
  | user
  | assistant
deriving DecidableEq, Repr

/-- ChatMessage from api-client.ts. -/
structure ChatMessage where
  role : Role
  content : String
  timestamp : String
deriving DecidableEq, Repr

/-- VisualSettings from api-client.ts: four optional string fields. -/
structure VisualSettings where
  color_palette : Option String
  aspect_ratio : Option String
  camera_settings : Option String
  image_purpose : Option String
deriving DecidableEq, Repr

/-- Session from api-client.ts. The answers_json record is modelled as an
association list since the code only carries it around. -/
structure Session where
  session_id : String
  current_step : String
  user_idea : String
  selected_category : Option String
  selected_llm : String
  answers_json : List (String × String)
  messages : List ChatMessage
  conversation_step : Nat
  selected_chips : List String
  created_at : String
  final_prompt : Option String
  selected_aspect_ratio : Option String
  selected_color_palette : Option String
  selected_camera_settings : Option String
  selected_image_purpose : Option String
deriving DecidableEq, Repr

/-- User from api-client.ts. -/
structure User where
  id : String
  email : String
deriving DecidableEq, Repr

/-- Result of JSON.parse on the cached user slot, as far as getUserId
looks at it: an object whose id field may be absent. A parse failure
(JSON.parse throwing) is the none case of the parser function. -/
structure StoredUser where
  id : Option String
deriving DecidableEq, Repr

/-- Model of ApiClient.getUserId (api-client.ts lines 82-94): read the
user slot; when absent return null; JSON.parse the content via the
ambient parser and return the id field; a parse failure is caught and
yields null. -/
def getUserId (parse : String → Option StoredUser) (st : LocalStorage) : Option String :=
  match st.user with
  | none => none
  | some userStr =>
    match parse userStr with
    | none => none
    | some u => u.id

/-- Headers built by ApiClient.request (api-client.ts lines 104-112):
a JSON content type, the caller-supplied headers, and a bearer
credential exactly when getUserId yields an id. Every client method
calls request without custom headers, so extra is the empty list at
all call sites in the repository. -/
def requestHeaders (parse : String → Option StoredUser) (st : LocalStorage)
    (extra : List (String × String)) : List (String × String) :=
  let base := [("Content-Type", "application/json")] ++ extra
  match getUserId parse st with
  | some uid => base ++ [("Authorization", "Bearer " ++ uid)]
  | none => base

/-- Fetch response as the request function inspects it: the numeric
status, the detail field of the error body (outer none when the body is
not JSON, inner none when the detail field is absent or empty), and the
success body kept abstract as a string. -/
structure FetchResponse where
  status : Nat
  errorDetail : Option (Option String)
  body : String
deriving DecidableEq, Repr

/-- Model of response.ok: status in the range 200 to 299. -/
def responseOk (status : Nat) : Bool :=
  decide (200 ≤ status ∧ status ≤ 299)

/-- Error message for a non-2xx status other than 401 and 403
(api-client.ts lines 135-138): the server detail when the body parses
and carries a truthy detail, the Unknown error fallback when the body
is not JSON, and HTTP status otherwise. -/
def httpErrorMessage (resp : FetchResponse) : String :=
  match resp.errorDetail with
  | none => "Unknown error"
  | some none => "HTTP " ++ toString resp.status
  | some (some d) => d

/-- Model of the response handling of ApiClient.request (api-client.ts
lines 119-145): a 401 removes the user and session_id slots, navigates
to /login and throws; a 403 throws an access-denied error; any other
non-2xx throws the normalized message; a 2xx returns the body. The
outer catch only logs and rethrows, so it is the identity here. -/
def handleResponse (br : Browser) (resp : FetchResponse) : Browser × Except String String :=
  if resp.status = 401 then
    ({ storage := { user := none, session_id := none }, location := "/login" },
     .error "Unauthorized")
  else if resp.status = 403 then
    (br, .error "Access denied: You don\x27t have permission to access this resource")
  else if responseOk resp.status = false then
    (br, .error (httpErrorMessage resp))
  else
    (br, .ok resp.body)

/-- Outgoing request as built by the client: target URL and headers. -/
structure RequestSpec where
  url : String
  headers : List (String × String)
deriving DecidableEq, Repr

/-- Model of ApiClient.request (api-client.ts lines 99-146) given the
response the network returns: the outgoing request spec, the browser
state after response handling, and the returned or thrown value. -/
def request (parse : String → Option StoredUser) (baseUrl : String) (br : Browser)
    (endpoint : String) (extra : List (String × String)) (resp : FetchResponse) :
    RequestSpec × Browser × Except String String :=
  ({ url := baseUrl ++ endpoint, headers := requestHeaders parse br.storage extra },
   handleResponse br resp)

/-- Model of the request built by ApiClient.uploadFile (api-client.ts
lines 428-446): it calls fetch directly with only a method and a
multipart body, passing no headers object at all, in particular no
Authorization header, regardless of the cached user. -/
def uploadFileRequest (baseUrl : String) (sessionId : String) : RequestSpec :=
  { url := baseUrl ++ "/api/session/" ++ sessionId ++ "/upload", headers := [] }

/-! Backend responses as the store consumes them. -/

/-- Response of POST /api/session/create as the store reads it. -/
structure CreateSessionResp where
  session_id : String
deriving DecidableEq, Repr

/-- Response of POST /api/visual-settings/generate-quick as the store reads it. -/
structure QuickPromptResp where
  final_prompt : String
deriving DecidableEq, Repr

/-- Response of POST /api/suggestions/toggle as the store reads it. -/
structure ToggleResp where
  selected_suggestions : List String
deriving DecidableEq, Repr

/-- Response of GET /api/suggestions as the store reads it. -/
structure SuggestionsResp where
  suggestions : List String
deriving DecidableEq, Repr

/-- Response of POST /api/answer/submit and POST /api/chat/skip. -/
structure AnswerResp where
  success : Bool
  next_question : Option String
  should_generate_prompt : Option Bool
  final_prompt : Option String
deriving DecidableEq, Repr

/-- Response of POST /api/prompt/refine as the store reads it. -/
structure RefineResp where
  refined_prompt : String
deriving DecidableEq, Repr

/-- Response of GET /api/chat/current-question. -/
structure CurrentQuestionResp where
  question : Option String
  is_complete : Bool
  conversation_step : Nat
deriving DecidableEq, Repr

/-- Response of GET /api/prompt/final as the store reads it. -/
structure FinalPromptResp where
  final_prompt : String
  user_idea : String
  category : Option String
deriving DecidableEq, Repr

/-- Response of POST /api/auth/login as the store reads it. -/
structure LoginResp where
  user : User
deriving DecidableEq, Repr

/-- Behaviour of the backend during one client interaction: for each
apiClient method the store calls, the value the awaited promise
resolves to, or the error message it rejects with. -/
structure Api where
  login : String → String → Except String LoginResp
  signup : String → String → Except String User
  createSession : String → Option String → Except String CreateSessionResp
  getSession : String → Except String Session
  selectCategory : String → String → String → Except String Unit
  saveVisualSettings : String → VisualSettings → Except String Unit
  generateQuickPrompt : String → Except String QuickPromptResp
  startChat : String → String → String → Option VisualSettings → Except String Unit
  submitAnswer : String → String → Except String AnswerResp
  skipToGeneration : String → Except String AnswerResp
  refinePrompt : String → String → Except String RefineResp
  getCurrentQuestion : String → Except String CurrentQuestionResp
  getSuggestions : String → Nat → Except String SuggestionsResp
  toggleSuggestion : String → String → Except String ToggleResp
  getFinalPrompt : String → Except String FinalPromptResp

/-- Backend calls a store action issues, recorded in order. -/
inductive ApiCall where
  | login (email : String)
  | createSession (llm : String) (userId : Option String)
  | getSession (sid : String)
  | selectCategory (sid category idea : String)
  | saveVisualSettings (sid : String) (settings : VisualSettings)
  | generateQuickPrompt (sid : String)
  | startChat (sid category idea : String) (vs : Option VisualSettings)
  | submitAnswer (sid answer : String)
  | skipToGeneration (sid : String)
  | refinePrompt (sid instruction : String)
  | getCurrentQuestion (sid : String)
  | getSuggestions (sid : String) (refresh : Nat)
  | toggleSuggestion (sid suggestion action : String)
  | getFinalPrompt (sid : String)
  | deleteSession (sid : String)
deriving DecidableEq, Repr

/-- Observable events of one store action, in program order: loading
flag writes, backend calls, durable storage writes, navigations. -/
inductive Event where
  | setLoading (b : Bool)
  | api (c : ApiCall)
  | storageSetSession (sid : String)
  | storageRemoveSession
  | storageSetUser (serialized : String)
  | navigate (url : String)
deriving DecidableEq, Repr

/-- Loading flag writes of a trace, in order. -/
def loadingEvents (evs : List Event) : List Bool :=
  evs.filterMap fun e =>
    match e with
    | .setLoading b => some b
    | _ => none

/-- Whether an event is a create-session backend call. -/
def isCreateCall : Event → Bool
  | .api (.createSession _ _) => true
  | _ => false

/-- Number of create-session backend calls in a trace. -/
def createCount (evs : List Event) : Nat :=
  (evs.filter isCreateCall).length

/-- State held by the SessionProvider (both variants declare the same
useState slots) together with the durable storage it mirrors into. -/
structure StoreState where
  sessionId : Option String
  session : Option Session
  user : Option User
  isLoading : Bool
  error : Option String
  selectedSuggestions : List String
  storage : LocalStorage
deriving DecidableEq, Repr

/-- JS short-circuit or on nullable strings: a || b takes a when it is
present (ids are non-empty strings, so present means truthy). -/
def jsOr (a b : Option String) : Option String :=
  match a with
  | some x => some x
  | none => b

/-- Message stored by handleError: err.message, with a generic default
when the message is empty (the falsy case of the or). -/
def errMessage (e : String) : String :=
  if e = "" then "An unexpected error occurred" else e

/-- Model of handleError (session-context.tsx lines 134-138): store the
message in the shared error field and log. -/
def handleError (st : StoreState) (e : String) : StoreState :=
  { st with error := some (errMessage e) }

/-- Model of refreshSession (session-context.tsx lines 140-154): fetch
the session for id-or-current, store it, and copy selected_chips into
the suggestion state (arrays are truthy in JS, so the copy always runs
on success); a failure goes to handleError and is not rethrown. -/
def refreshSession (api : Api) (st : StoreState) (id : Option String) :
    StoreState × List Event :=
  match jsOr id st.sessionId with
  | none => (st, [])
  | some targetId =>
    match api.getSession targetId with
    | .ok sessionData =>
        ({ st with session := some sessionData,
                   selectedSuggestions := sessionData.selected_chips },
         [.api (.getSession targetId)])
    | .error e => (handleError st e, [.api (.getSession targetId)])

/-- Model of initializeSession (identical in both variants): set
loading, create a backend session tagged with the signed-in user id,
mirror the id to memory and durable storage, refresh, clear loading in
the finally block; a failure goes to handleError and is swallowed. -/
def initializeSession (api : Api) (st : StoreState) (llmProvider : String) :
    StoreState × List Event :=
  let st1 := { st with isLoading := true, error := none }
  let call := ApiCall.createSession llmProvider (st.user.map User.id)
  match api.createSession llmProvider (st.user.map User.id) with
  | .ok resp =>
      let st2 := { st1 with sessionId := some resp.session_id,
                            storage := { st1.storage with session_id := some resp.session_id } }
      let r2 := refreshSession api st2 (some resp.session_id)
      ({ r2.1 with isLoading := false },
       [.setLoading true, .api call, .storageSetSession resp.session_id]
         ++ r2.2 ++ [.setLoading false])
  | .error e =>
      ({ handleError st1 e with isLoading := false },
       [.setLoading true, .api call, .setLoading false])

/-- Phase of selectCategory shared by both variants once a session id
is in hand (session-context.tsx lines 200-210): set loading, record
category and idea, refresh, clear loading; a failure goes to
handleError and is not rethrown. -/
def selectCategoryMain (api : Api) (st : StoreState) (sid category idea : String) :
    StoreState × List Event :=
  let st1 := { st with isLoading := true, error := none }
  match api.selectCategory sid category idea with
  | .ok _ =>
      let r2 := refreshSession api st1 (some sid)
      ({ r2.1 with isLoading := false },
       [.setLoading true, .api (.selectCategory sid category idea)]
         ++ r2.2 ++ [.setLoading false])
  | .error e =>
      ({ handleError st1 e with isLoading := false },
       [.setLoading true, .api (.selectCategory sid category idea), .setLoading false])

namespace Ctx

/-! Email/password variant: src/frontend/contexts/session-context.tsx. -/

/-- Model of login (session-context.tsx lines 81-102): on success cache
the user, then reset the in-memory session id and session to null and
remove the durable session_id slot; on failure store the message and
rethrow; loading is cleared in the finally block either way. The
serializer stands for JSON.stringify. -/
def login (api : Api) (stringify : User → String) (st : StoreState)
    (email pass : String) : StoreState × List Event × Except String Unit :=
  let st1 := { st with isLoading := true, error := none }
  match api.login email pass with
  | .ok res =>
      let st2 := { st1 with user := some res.user,
                            storage := { st1.storage with user := some (stringify res.user) } }
      let st3 := { st2 with sessionId := none, session := none,
                            storage := { st2.storage with session_id := none } }
      ({ st3 with isLoading := false },
       [.setLoading true, .api (.login email), .storageSetUser (stringify res.user),
        .storageRemoveSession, .setLoading false],
       .ok ())
  | .error e =>
      ({ st1 with error := some (if e = "" then "Login failed" else e),
                  isLoading := false },
       [.setLoading true, .api (.login email), .setLoading false],
       .error e)

/-- Model of selectCategory (session-context.tsx lines 179-211): the
active id prefers the durable slot over the possibly stale in-memory
one; when absent a session is created on demand and mirrored to memory
and storage (a creation failure stores the message and returns); then
the shared main phase runs. The action never rethrows. -/
def selectCategory (api : Api) (st : StoreState) (category idea : String) :
    StoreState × List Event :=
  match jsOr st.storage.session_id st.sessionId with
  | some sid => selectCategoryMain api st sid category idea
  | none =>
    let call := ApiCall.createSession "Claude" (st.user.map User.id)
    match api.createSession "Claude" (st.user.map User.id) with
    | .error e => (handleError st e, [.api call])
    | .ok resp =>
        let sid := resp.session_id
        let st1 := { st with sessionId := some sid,
                             storage := { st.storage with session_id := some sid } }
        let r2 := selectCategoryMain api st1 sid category idea
        (r2.1, [.api call, .storageSetSession sid] ++ r2.2)

/-- Model of saveVisualSettings (session-context.tsx lines 213-228):
guard, loading, save, refresh, rethrow on failure, loading cleared in
the finally block. -/
def saveVisualSettings (api : Api) (st : StoreState) (settings : VisualSettings) :
    StoreState × List Event × Except String Unit :=
  match st.sessionId with
  | none => (st, [], .error "No active session")
  | some sid =>
    let st1 := { st with isLoading := true, error := none }
    match api.saveVisualSettings sid settings with
    | .ok _ =>
        let r2 := refreshSession api st1 none
        ({ r2.1 with isLoading := false },
         [.setLoading true, .api (.saveVisualSettings sid settings)]
           ++ r2.2 ++ [.setLoading false],
         .ok ())
    | .error e =>
        ({ handleError st1 e with isLoading := false },
         [.setLoading true, .api (.saveVisualSettings sid settings), .setLoading false],
         .error e)

/-- Model of generateQuickPrompt (session-context.tsx lines 230-246):
guard, loading, generate, refresh, return the prompt; rethrow on
failure; loading cleared in the finally block. -/
def generateQuickPrompt (api : Api) (st : StoreState) :
    StoreState × List Event × Except String String :=
  match st.sessionId with
  | none => (st, [], .error "No active session")
  | some sid =>
    let st1 := { st with isLoading := true, error := none }
    match api.generateQuickPrompt sid with
    | .ok resp =>
        let r2 := refreshSession api st1 none
        ({ r2.1 with isLoading := false },
         [.setLoading true, .api (.generateQuickPrompt sid)]
           ++ r2.2 ++ [.setLoading false],
         .ok resp.final_prompt)
    | .error e =>
        ({ handleError st1 e with isLoading := false },
         [.setLoading true, .api (.generateQuickPrompt sid), .setLoading false],
         .error e)

/-- Model of startChat (session-context.tsx lines 248-267). -/
def startChat (api : Api) (st : StoreState) (category idea : String)
    (vs : Option VisualSettings) : StoreState × List Event × Except String Unit :=
  match st.sessionId with
  | none => (st, [], .error "No active session")
  | some sid =>
    let st1 := { st with isLoading := true, error := none }
    match api.startChat sid category idea vs with
    | .ok _ =>
        let r2 := refreshSession api st1 none
        ({ r2.1 with isLoading := false },
         [.setLoading true, .api (.startChat sid category idea vs)]
           ++ r2.2 ++ [.setLoading false],
         .ok ())
    | .error e =>
        ({ handleError st1 e with isLoading := false },
         [.setLoading true, .api (.startChat sid category idea vs), .setLoading false],
         .error e)

/-- Model of submitAnswer (session-context.tsx lines 269-285). -/
def submitAnswer (api : Api) (st : StoreState) (answer : String) :
    StoreState × List Event × Except String AnswerResp :=
  match st.sessionId with
  | none => (st, [], .error "No active session")
  | some sid =>
    let st1 := { st with isLoading := true, error := none }
    match api.submitAnswer sid answer with
    | .ok resp =>
        let r2 := refreshSession api st1 none
        ({ r2.1 with isLoading := false },
         [.setLoading true, .api (.submitAnswer sid answer)]
           ++ r2.2 ++ [.setLoading false],
         .ok resp)
    | .error e =>
        ({ handleError st1 e with isLoading := false },
         [.setLoading true, .api (.submitAnswer sid answer), .setLoading false],
         .error e)

/-- Model of skipToGeneration (session-context.tsx lines 287-302). -/
def skipToGeneration (api : Api) (st : StoreState) :
    StoreState × List Event × Except String Unit :=
  match st.sessionId with
  | none => (st, [], .error "No active session")
  | some sid =>
    let st1 := { st with isLoading := true, error := none }
    match api.skipToGeneration sid with
    | .ok _ =>
        let r2 := refreshSession api st1 none
        ({ r2.1 with isLoading := false },
         [.setLoading true, .api (.skipToGeneration sid)]
           ++ r2.2 ++ [.setLoading false],
         .ok ())
    | .error e =>
        ({ handleError st1 e with isLoading := false },
         [.setLoading true, .api (.skipToGeneration sid), .setLoading false],
         .error e)

/-- Model of getCurrentQuestion (session-context.tsx lines 304-313):
no loading flag; rethrows on failure. -/
def getCurrentQuestion (api : Api) (st : StoreState) :
    StoreState × List Event × Except String CurrentQuestionResp :=
  match st.sessionId with
  | none => (st, [], .error "No active session")
  | some sid =>
    match api.getCurrentQuestion sid with
    | .ok resp => (st, [.api (.getCurrentQuestion sid)], .ok resp)
    | .error e => (handleError st e, [.api (.getCurrentQuestion sid)], .error e)

/-- Model of getSuggestions (session-context.tsx lines 315-325): no
loading flag; a failure stores the message and resolves with the empty
list instead of rethrowing. -/
def getSuggestions (api : Api) (st : StoreState) (refresh : Nat) :
    StoreState × List Event × Except String (List String) :=
  match st.sessionId with
  | none => (st, [], .error "No active session")
  | some sid =>
    match api.getSuggestions sid refresh with
    | .ok resp => (st, [.api (.getSuggestions sid refresh)], .ok resp.suggestions)
    | .error e => (handleError st e, [.api (.getSuggestions sid refresh)], .ok [])

/-- Model of toggleSuggestion (session-context.tsx lines 327-336): no
loading flag, no refresh; the selected set is taken from the toggle
response; a failure stores the message and resolves normally. -/
def toggleSuggestion (api : Api) (st : StoreState) (suggestion : String) :
    StoreState × List Event × Except String Unit :=
  match st.sessionId with
  | none => (st, [], .error "No active session")
  | some sid =>
    match api.toggleSuggestion sid suggestion with
    | .ok resp =>
        ({ st with selectedSuggestions := resp.selected_suggestions },
         [.api (.toggleSuggestion sid suggestion "toggle")], .ok ())
    | .error e =>
        (handleError st e, [.api (.toggleSuggestion sid suggestion "toggle")], .ok ())

/-- Model of getFinalPrompt (session-context.tsx lines 338-347). -/
def getFinalPrompt (api : Api) (st : StoreState) :
    StoreState × List Event × Except String FinalPromptResp :=
  match st.sessionId with
  | none => (st, [], .error "No active session")
  | some sid =>
    match api.getFinalPrompt sid with
    | .ok resp => (st, [.api (.getFinalPrompt sid)], .ok resp)
    | .error e => (handleError st e, [.api (.getFinalPrompt sid)], .error e)

/-- Model of refinePrompt (session-context.tsx lines 349-365). -/
def refinePrompt (api : Api) (st : StoreState) (instruction : String) :
    StoreState × List Event × Except String String :=
  match st.sessionId with
  | none => (st, [], .error "No active session")
  | some sid =>
    let st1 := { st with isLoading := true, error := none }
    match api.refinePrompt sid instruction with
    | .ok resp =>
        let r2 := refreshSession api st1 none
        ({ r2.1 with isLoading := false },
         [.setLoading true, .api (.refinePrompt sid instruction)]
           ++ r2.2 ++ [.setLoading false],
         .ok resp.refined_prompt)
    | .error e =>
        ({ handleError st1 e with isLoading := false },
         [.setLoading true, .api (.refinePrompt sid instruction), .setLoading false],
         .error e)

/-- Sequential composition of selectCategory calls from one tab. -/
def selectCategorySeq (api : Api) (st : StoreState) :
    List (String × String) → StoreState × List Event
  | [] => (st, [])
  | (category, idea) :: rest =>
      let r1 := selectCategory api st category idea
      let r2 := selectCategorySeq api r1.1 rest
      (r2.1, r1.2 ++ r2.2)

end Ctx

namespace Sb

/-! Third-party identity-provider variant: src/unnamed/part_004. -/

/-- Model of the onAuthStateChange listener (part_004 lines 79-86): it
only mirrors the provider user into state; the branch for a signed-out
user is an empty comment block, and nothing touches the session id, the
session object or the durable session_id slot on either transition. -/
def onAuthStateChange (st : StoreState) (authUser : Option User) : StoreState :=
  { st with user := authUser }

/-- Model of selectCategory (part_004 lines 146-189): when the closure
session id is null it first awaits initializeSession, but the closure
variables sessionId and user keep their pre-call values, so the ensure
block that follows still sees null, calls createSession a second time,
and runs the main phase with that second id; the durable slot is never
consulted. A creation failure stores the message and returns. -/
def selectCategory (api : Api) (st : StoreState) (category idea : String) :
    StoreState × List Event :=
  let closureSid := st.sessionId
  let closureUser := st.user
  let r1 :=
    if closureSid = none then initializeSession api st "Claude" else (st, [])
  match closureSid with
  | some sid =>
      let r2 := selectCategoryMain api r1.1 sid category idea
      (r2.1, r1.2 ++ r2.2)
  | none =>
    let call := ApiCall.createSession "Claude" (closureUser.map User.id)
    match api.createSession "Claude" (closureUser.map User.id) with
    | .error e => (handleError r1.1 e, r1.2 ++ [.api call])
    | .ok resp =>
        let sid := resp.session_id
        let st2 := { r1.1 with sessionId := some sid,
                               storage := { r1.1.storage with session_id := some sid } }
        let r3 := selectCategoryMain api st2 sid category idea
        (r3.1, r1.2 ++ [.api call, .storageSetSession sid] ++ r3.2)

end Sb

/-! Wizard controller and page handlers. -/

/-- Steps of the single-page wizard (part_005 line 18). -/
inductive Step where
  | landing
  | category
  | generate
  | chat
  | final
deriving DecidableEq, Repr

/-- Model of handleStartNew in the single-page wizard (part_005 lines
69-87): when a session exists it saves the four visual-settings fields
as undefined (a failure is caught and only logged), then returns the
wizard to the landing step; it never deletes the session. -/
def homeHandleStartNew (sessionId : Option String) : List ApiCall × Step :=
  match sessionId with
  | some sid =>
      ([.saveVisualSettings sid
          { color_palette := none, aspect_ratio := none,
            camera_settings := none, image_purpose := none }],
       Step.landing)
  | none => ([], Step.landing)

/-- Model of handleStartNew on the routed result page
(src/frontend/app/page.tsx lines 219-222): it only navigates to the
root route and issues no backend call. -/
def resultHandleStartNew : List ApiCall × String :=
  ([], "/")

/-- Characters left after stripping whitespace from both ends. -/
def trimChars (l : List Char) : List Char :=
  ((l.dropWhile Char.isWhitespace).reverse.dropWhile Char.isWhitespace).reverse

/-- Model of the JS String.prototype.trim: strip whitespace from both
ends of the string. -/
def jsTrim (s : String) : String :=
  String.mk (trimChars s.data)

/-- Outcome of the CategorySelector continue handler. -/
inductive ContinueResult where
  | rejectedMissing
  | rejectedTooShort
  | submitted (category idea : String)
deriving DecidableEq, Repr

/-- Model of CategorySelector.handleContinue (visual-settings-modal.tsx
lines 289-326): reject when no category is picked or the idea trims to
empty; reject when the trimmed idea is shorter than 10 characters; only
otherwise call the store selectCategory with the untrimmed idea. -/
def handleContinue (selectedCategory : Option String) (userIdea : String) :
    ContinueResult :=
  match selectedCategory with
  | none => .rejectedMissing
  | some category =>
    if jsTrim userIdea = "" then .rejectedMissing
    else if (jsTrim userIdea).length < 10 then .rejectedTooShort
    else .submitted category userIdea

/-- Outcome of the GeneratePanel generate handler guards. -/
inductive GenerateOutcome where
  | rejectedEmpty
  | rejectedNoCategory
  | proceeds (category idea : String)
deriving DecidableEq, Repr

/-- Model of the guards of GeneratePanel.handleGenerate
(generate-panel.tsx lines 295-306): reject an idea that trims to empty
and reject when the session has no category; any other idea, of any
length, goes on to the store selectCategory and the follow-up calls. -/
def handleGenerate (prompt : String) (sessionCategory : Option String) :
    GenerateOutcome :=
  if jsTrim prompt = "" then .rejectedEmpty
  else
    match sessionCategory with
    | none => .rejectedNoCategory
    | some category => .proceeds category prompt

/-- Placeholder idea built by Home.handleCategorySelect
(src/frontend/app/page.tsx line 49) before it calls selectCategory
without any length check. -/
def placeholderIdea (categoryName : String) : String :=
  "Create a " ++ categoryName.toLower ++ " style image"

/-! Concrete fixtures used to evaluate the model on explicit inputs. -/

/-- Concrete backend session value. -/
def sampleSession : Session :=
  { session_id := "s1", current_step := "category", user_idea := "an idea",
    selected_category := some "Logo", selected_llm := "Claude",
    answers_json := [], messages := [], conversation_step := 0,
    selected_chips := [], created_at := "t0", final_prompt := none,
    selected_aspect_ratio := none, selected_color_palette := none,
    selected_camera_settings := none, selected_image_purpose := none }

/-- Backend on which every call succeeds. -/
def apiOk : Api :=
  { login := fun email _ => .ok { user := { id := "u1", email := email } },
    signup := fun email _ => .ok { id := "u1", email := email },
    createSession := fun _ _ => .ok { session_id := "s1" },
    getSession := fun sid => .ok { sampleSession with session_id := sid },
    selectCategory := fun _ _ _ => .ok (),
    saveVisualSettings := fun _ _ => .ok (),
    generateQuickPrompt := fun _ => .ok { final_prompt := "a prompt" },
    startChat := fun _ _ _ _ => .ok (),
    submitAnswer := fun _ _ => .ok
      { success := true, next_question := none,
        should_generate_prompt := none, final_prompt := none },
    skipToGeneration := fun _ => .ok
      { success := true, next_question := none,
        should_generate_prompt := none, final_prompt := none },
    refinePrompt := fun _ _ => .ok { refined_prompt := "refined" },
    getCurrentQuestion := fun _ => .ok
      { question := none, is_complete := true, conversation_step := 1 },
    getSuggestions := fun _ _ => .ok { suggestions := ["neon"] },
    toggleSuggestion := fun _ _ => .ok { selected_suggestions := ["neon"] },
    getFinalPrompt := fun _ => .ok
      { final_prompt := "a prompt", user_idea := "an idea", category := some "Logo" } }

/-- Backend on which every call rejects with the message boom. -/
def apiFail : Api :=
  { login := fun _ _ => .error "boom",
    signup := fun _ _ => .error "boom",
    createSession := fun _ _ => .error "boom",
    getSession := fun _ => .error "boom",
    selectCategory := fun _ _ _ => .error "boom",
    saveVisualSettings := fun _ _ => .error "boom",
    generateQuickPrompt := fun _ => .error "boom",
    startChat := fun _ _ _ _ => .error "boom",
    submitAnswer := fun _ _ => .error "boom",
    skipToGeneration := fun _ => .error "boom",
    refinePrompt := fun _ _ => .error "boom",
    getCurrentQuestion := fun _ => .error "boom",
    getSuggestions := fun _ _ => .error "boom",
    toggleSuggestion := fun _ _ => .error "boom",
    getFinalPrompt := fun _ => .error "boom" }

/-- Fresh tab: no session, no user, nothing stored. -/
def emptyState : StoreState :=
  { sessionId := none, session := none, user := none, isLoading := false,
    error := none, selectedSuggestions := [],
    storage := { user := none, session_id := none } }

/-- Tab with an attached session s1 mirrored in durable storage. -/
def stateWithSid : StoreState :=
  { emptyState with sessionId := some "s1",
                    storage := { user := none, session_id := some "s1" } }

/-- Tab of a guest who worked in session old before someone logs in. -/
def oldSessionState : StoreState :=
  { emptyState with sessionId := some "old",
                    session := some sampleSession,
                    storage := { user := none, session_id := some "old" } }

/-! Helper lemmas about the store model. -/

/-- Refreshing never touches durable storage, the session id, the user
or the loading flag. -/
theorem refreshSession_frame (api : Api) (st : StoreState) (id : Option String) :
    (refreshSession api st id).1.storage = st.storage ∧
    (refreshSession api st id).1.sessionId = st.sessionId ∧
    (refreshSession api st id).1.user = st.user ∧
    (refreshSession api st id).1.isLoading = st.isLoading := by
  unfold refreshSession
  rcases hj : jsOr id st.sessionId with _ | tid
  · exact ⟨rfl, rfl, rfl, rfl⟩
  · rcases hg : api.getSession tid with e | sd <;> simp [hg, handleError]

/-- Refreshing sets no loading flag and makes no create-session call. -/
theorem refreshSession_events (api : Api) (st : StoreState) (id : Option String) :
    loadingEvents (refreshSession api st id).2 = [] ∧
    createCount (refreshSession api st id).2 = 0 := by
  unfold refreshSession
  rcases hj : jsOr id st.sessionId with _ | tid
  · exact ⟨rfl, rfl⟩
  · rcases hg : api.getSession tid with e | sd <;>
      simp [hg, loadingEvents, createCount, isCreateCall]

/-- Main phase of selectCategory: storage is untouched, no session is
created, and the loading flag is set on entry and cleared at the end. -/
theorem selectCategoryMain_spec (api : Api) (st : StoreState) (sid category idea : String) :
    (selectCategoryMain api st sid category idea).1.storage = st.storage ∧
    (selectCategoryMain api st sid category idea).1.sessionId = st.sessionId ∧
    createCount (selectCategoryMain api st sid category idea).2 = 0 ∧
    loadingEvents (selectCategoryMain api st sid category idea).2 = [true, false] ∧
    (selectCategoryMain api st sid category idea).1.isLoading = false := by
  unfold selectCategoryMain
  rcases h : api.selectCategory sid category idea with e | u
  · simp [handleError, createCount, isCreateCall, loadingEvents]
  · have hf := refreshSession_frame api { st with isLoading := true, error := none } (some sid)
    have he := refreshSession_events api { st with isLoading := true, error := none } (some sid)
    simp only [createCount, loadingEvents, List.filter_append, List.filterMap_append,
      List.length_append] at he ⊢
    simp_all [createCount, loadingEvents, isCreateCall]

/-- A selectCategory call that finds the durable id in place runs the
main phase on that id. -/
theorem selectCategory_uses_durable (api : Api) (st : StoreState) (d category idea : String)
    (h : st.storage.session_id = some d) :
    Ctx.selectCategory api st category idea = selectCategoryMain api st d category idea := by
  unfold Ctx.selectCategory
  simp [h, jsOr]

/-- Once the durable slot holds an id, a selectCategory call creates no
session and keeps the slot unchanged. -/
theorem selectCategory_no_create (api : Api) (st : StoreState) (d category idea : String)
    (h : st.storage.session_id = some d) :
    createCount (Ctx.selectCategory api st category idea).2 = 0 ∧
    (Ctx.selectCategory api st category idea).1.storage.session_id = some d := by
  rw [selectCategory_uses_durable api st d category idea h]
  exact ⟨(selectCategoryMain_spec api st d category idea).2.2.1,
         by rw [(selectCategoryMain_spec api st d category idea).1, h]⟩

/-- Create-session calls in a concatenated trace add up. -/
theorem createCount_append (a b : List Event) :
    createCount (a ++ b) = createCount a + createCount b := by
  simp [createCount, List.filter_append]

/-- Loading flag writes in a concatenated trace concatenate. -/
theorem loadingEvents_append (a b : List Event) :
    loadingEvents (a ++ b) = loadingEvents a ++ loadingEvents b := by
  simp [loadingEvents]

/-- A setLoading event contributes its flag value. -/
theorem loadingEvents_setLoading (b : Bool) (evs : List Event) :
    loadingEvents (Event.setLoading b :: evs) = b :: loadingEvents evs := rfl

/-- A backend call contributes no flag value. -/
theorem loadingEvents_api (c : ApiCall) (evs : List Event) :
    loadingEvents (Event.api c :: evs) = loadingEvents evs := rfl

/-- A storage write contributes no flag value. -/
theorem loadingEvents_storageSetSession (sid : String) (evs : List Event) :
    loadingEvents (Event.storageSetSession sid :: evs) = loadingEvents evs := rfl

/-- An empty trace holds no flag value. -/
theorem loadingEvents_nil : loadingEvents [] = [] := rfl

/-- Refreshing on an explicit id issues exactly the one fetch call. -/
theorem refreshSession_trace_some (api : Api) (st : StoreState) (sid : String) :
    (refreshSession api st (some sid)).2 = [Event.api (ApiCall.getSession sid)] := by
  unfold refreshSession
  rcases hg : api.getSession sid with e | sd <;> simp [jsOr, hg]

/-- Refreshing on the current session issues exactly the one fetch call. -/
theorem refreshSession_trace_cur (api : Api) (st : StoreState) (sid : String)
    (h : st.sessionId = some sid) :
    (refreshSession api st none).2 = [Event.api (ApiCall.getSession sid)] := by
  unfold refreshSession
  rcases hg : api.getSession sid with e | sd <;> simp [jsOr, h, hg]

/-- Initializing always makes exactly one create-session call, whether
the backend accepts it or not. -/
theorem initializeSession_createCount (api : Api) (st : StoreState) (llm : String) :
    createCount (initializeSession api st llm).2 = 1 := by
  unfold initializeSession
  rcases hc : api.createSession llm (st.user.map User.id) with e | r
  · simp [hc, createCount, isCreateCall]
  · simp only [hc, createCount_append, refreshSession_events]
    simp [createCount, isCreateCall]

/-- First selectCategory call of a fresh tab: one session is created
and its id is mirrored to the durable slot. -/
theorem selectCategory_first_create (api : Api) (st : StoreState) (r : CreateSessionResp)
    (category idea : String)
    (hstor : st.storage.session_id = none) (hmem : st.sessionId = none)
    (hc : api.createSession "Claude" (st.user.map User.id) = .ok r) :
    createCount (Ctx.selectCategory api st category idea).2 = 1 ∧
    (Ctx.selectCategory api st category idea).1.storage.session_id = some r.session_id := by
  unfold Ctx.selectCategory
  simp only [hstor, hmem, jsOr, hc]
  constructor
  · simp only [createCount_append, selectCategoryMain_spec]
    simp [createCount, isCreateCall]
  · simp [selectCategoryMain_spec]

/-- With the durable slot filled, a whole sequence of selectCategory
calls creates no session and leaves the slot unchanged. -/
theorem selectCategorySeq_no_create (api : Api) (d : String) :
    ∀ (calls : List (String × String)) (st : StoreState),
      st.storage.session_id = some d →
      createCount (Ctx.selectCategorySeq api st calls).2 = 0 ∧
      (Ctx.selectCategorySeq api st calls).1.storage.session_id = some d
  | [], st, h => ⟨rfl, h⟩
  | (category, idea) :: rest, st, h => by
      have h1 := selectCategory_no_create api st d category idea h
      have h2 := selectCategorySeq_no_create api d rest
        (Ctx.selectCategory api st category idea).1 h1.2
      unfold Ctx.selectCategorySeq
      refine ⟨?_, h2.2⟩
      rw [createCount_append, h1.1, h2.1]

/-- One identity-provider selectCategory call with no in-memory session
id makes exactly two create-session calls. -/
theorem sb_selectCategory_two_creates (api : Api) (st : StoreState) (category idea : String)
    (hmem : st.sessionId = none) :
    createCount (Sb.selectCategory api st category idea).2 = 2 := by
  unfold Sb.selectCategory
  simp only [hmem, if_true]
  rcases hc : api.createSession "Claude" (st.user.map User.id) with e | r
  · simp only [hc, createCount_append, initializeSession_createCount]
    simp [createCount, isCreateCall, handleError]
  · simp only [hc, createCount_append, initializeSession_createCount,
               selectCategoryMain_spec, if_true]
    simp [createCount, isCreateCall]

/-! Claim theorems. -/

/-- C1, amended: in the email/password variant a successful login
resets the in-memory session id and session object to null and removes
the durable session_id slot; in the identity-provider variant the
auth-state-change handler only replaces the user and leaves the
pre-login session id, session object and durable slot untouched. -/
theorem c1_login_session_invalidation (api : Api) (stringify : User → String)
    (st : StoreState) (email pass : String) (res : LoginResp)
    (hlogin : api.login email pass = .ok res) :
    ((Ctx.login api stringify st email pass).1.sessionId = none ∧
     (Ctx.login api stringify st email pass).1.session = none ∧
     (Ctx.login api stringify st email pass).1.storage.session_id = none) ∧
    ∀ u : User,
      (Sb.onAuthStateChange st (some u)).sessionId = st.sessionId ∧
      (Sb.onAuthStateChange st (some u)).session = st.session ∧
      (Sb.onAuthStateChange st (some u)).storage = st.storage := by
  refine ⟨?_, fun u => ⟨rfl, rfl, rfl⟩⟩
  simp [Ctx.login, hlogin]

/-- C1 counterexample: in the identity-provider variant, after a user
signs in on a tab holding the guest session old, both the in-memory and
the durable session id still hold old, so the claim that both variants
invalidate the pre-login session id fails here. -/
theorem c1_counterexample :
    (Sb.onAuthStateChange oldSessionState (some { id := "u2", email := "b@c" })).sessionId
      = some "old" ∧
    (Sb.onAuthStateChange oldSessionState (some { id := "u2", email := "b@c" })).storage.session_id
      = some "old" := ⟨rfl, rfl⟩

/-- C1 witness: concrete successful login on a tab with session old. -/
theorem c1_witness :
    (Ctx.login apiOk User.id oldSessionState "a@b" "pw").1.sessionId = none ∧
    (Ctx.login apiOk User.id oldSessionState "a@b" "pw").1.storage.session_id = none := by
  have h := c1_login_session_invalidation apiOk User.id oldSessionState "a@b" "pw"
    { user := { id := "u1", email := "a@b" } } rfl
  exact ⟨h.1.1, h.1.2.2⟩

/-- C2, confirmed: on any endpoint, a 401 response makes the request
function drop the cached user and the stored session id, point the
location at /login, and throw; no value is ever returned. -/
theorem c2_request_401_forces_relogin (parse : String → Option StoredUser)
    (baseUrl : String) (br : Browser) (endpoint : String)
    (extra : List (String × String)) (errBody : Option (Option String)) (body : String) :
    (request parse baseUrl br endpoint extra
        { status := 401, errorDetail := errBody, body := body }).2 =
      ({ storage := { user := none, session_id := none }, location := "/login" },
       Except.error "Unauthorized") := rfl

/-- C3, amended: in the email/password variant every nonempty sequence
of selectCategory calls from a fresh tab makes exactly one create call
(when creation succeeds), and a call finding the durable slot filled
runs on the durable id whatever the in-memory id holds; in the
identity-provider variant a single call with no in-memory id makes two
create calls instead of one. -/
theorem c3_selectCategory_session_creation (api : Api) (st : StoreState)
    (r : CreateSessionResp)
    (hc : ∀ llm uid, api.createSession llm uid = .ok r)
    (hstor : st.storage.session_id = none) (hmem : st.sessionId = none) :
    (∀ calls : List (String × String), calls ≠ [] →
        createCount (Ctx.selectCategorySeq api st calls).2 = 1) ∧
    (∀ (st2 : StoreState) (d category idea : String),
        st2.storage.session_id = some d →
        Ctx.selectCategory api st2 category idea =
          selectCategoryMain api st2 d category idea) ∧
    (∀ (st3 : StoreState) (category idea : String), st3.sessionId = none →
        createCount (Sb.selectCategory api st3 category idea).2 = 2) := by
  refine ⟨?_, fun st2 d category idea h => selectCategory_uses_durable api st2 d category idea h,
          fun st3 category idea h => sb_selectCategory_two_creates api st3 category idea h⟩
  intro calls hne
  match calls with
  | [] => exact absurd rfl hne
  | (category, idea) :: rest =>
    have h1 := selectCategory_first_create api st r category idea hstor hmem
      (hc "Claude" (st.user.map User.id))
    have h2 := selectCategorySeq_no_create api r.session_id rest
      (Ctx.selectCategory api st category idea).1 h1.2
    show createCount ((Ctx.selectCategory api st category idea).2 ++
      (Ctx.selectCategorySeq api (Ctx.selectCategory api st category idea).1 rest).2) = 1
    rw [createCount_append, h1.1, h2.1]

/-- C3 counterexample: one identity-provider selectCategory call on a
fresh tab issues two create-session calls, not exactly one. -/
theorem c3_counterexample :
    createCount (Sb.selectCategory apiOk emptyState "Logo" "a watercolor fox").2 = 2 := by
  decide

/-- C3 witness: concrete two-call sequence on a fresh tab creates one
session, and the two-create behaviour at a concrete fresh tab. -/
theorem c3_witness :
    createCount (Ctx.selectCategorySeq apiOk emptyState
      [("Logo", "a modern geometric logo"), ("Art", "a watercolor fox")]).2 = 1 ∧
    createCount (Sb.selectCategory apiOk emptyState "Art" "a pencil sketch").2 = 2 := by
  have h := c3_selectCategory_session_creation apiOk emptyState
    { session_id := "s1" } (fun _ _ => rfl) rfl rfl
  exact ⟨h.1 _ (List.cons_ne_nil _ _), h.2.2 emptyState "Art" "a pencil sketch" rfl⟩

/-- C4, amended: every action stores the failure message in the shared
error field, but only some rethrow. The guarded calls
saveVisualSettings, generateQuickPrompt, startChat, submitAnswer,
skipToGeneration, refinePrompt, getCurrentQuestion and getFinalPrompt
rethrow; getSuggestions resolves with an empty list, toggleSuggestion
resolves with unit, and selectCategory and initializeSession return
normally after storing the message. -/
theorem c4_error_handling (api : Api) (st : StoreState) (sid e : String)
    (settings : VisualSettings) (category idea answer instruction suggestion : String)
    (vs : Option VisualSettings) (refresh : Nat)
    (hsid : st.sessionId = some sid)
    (hstor : st.storage.session_id = some sid)
    (h1 : api.saveVisualSettings sid settings = .error e)
    (h2 : api.generateQuickPrompt sid = .error e)
    (h3 : api.startChat sid category idea vs = .error e)
    (h4 : api.submitAnswer sid answer = .error e)
    (h5 : api.skipToGeneration sid = .error e)
    (h6 : api.refinePrompt sid instruction = .error e)
    (h7 : api.getCurrentQuestion sid = .error e)
    (h8 : api.getFinalPrompt sid = .error e)
    (h9 : api.getSuggestions sid refresh = .error e)
    (h10 : api.toggleSuggestion sid suggestion = .error e)
    (h11 : api.selectCategory sid category idea = .error e)
    (h12 : api.createSession "Claude" (st.user.map User.id) = .error e) :
    ((Ctx.saveVisualSettings api st settings).1.error = some (errMessage e) ∧
     (Ctx.saveVisualSettings api st settings).2.2 = .error e) ∧
    ((Ctx.generateQuickPrompt api st).1.error = some (errMessage e) ∧
     (Ctx.generateQuickPrompt api st).2.2 = .error e) ∧
    ((Ctx.startChat api st category idea vs).1.error = some (errMessage e) ∧
     (Ctx.startChat api st category idea vs).2.2 = .error e) ∧
    ((Ctx.submitAnswer api st answer).1.error = some (errMessage e) ∧
     (Ctx.submitAnswer api st answer).2.2 = .error e) ∧
    ((Ctx.skipToGeneration api st).1.error = some (errMessage e) ∧
     (Ctx.skipToGeneration api st).2.2 = .error e) ∧
    ((Ctx.refinePrompt api st instruction).1.error = some (errMessage e) ∧
     (Ctx.refinePrompt api st instruction).2.2 = .error e) ∧
    ((Ctx.getCurrentQuestion api st).1.error = some (errMessage e) ∧
     (Ctx.getCurrentQuestion api st).2.2 = .error e) ∧
    ((Ctx.getFinalPrompt api st).1.error = some (errMessage e) ∧
     (Ctx.getFinalPrompt api st).2.2 = .error e) ∧
    ((Ctx.getSuggestions api st refresh).1.error = some (errMessage e) ∧
     (Ctx.getSuggestions api st refresh).2.2 = .ok []) ∧
    ((Ctx.toggleSuggestion api st suggestion).1.error = some (errMessage e) ∧
     (Ctx.toggleSuggestion api st suggestion).2.2 = .ok ()) ∧
    (Ctx.selectCategory api st category idea).1.error = some (errMessage e) ∧
    (initializeSession api st "Claude").1.error = some (errMessage e) := by
  refine ⟨⟨?_, ?_⟩, ⟨?_, ?_⟩, ⟨?_, ?_⟩, ⟨?_, ?_⟩, ⟨?_, ?_⟩, ⟨?_, ?_⟩, ⟨?_, ?_⟩,
    ⟨?_, ?_⟩, ⟨?_, ?_⟩, ⟨?_, ?_⟩, ?_, ?_⟩ <;>
    simp [Ctx.saveVisualSettings, Ctx.generateQuickPrompt, Ctx.startChat,
          Ctx.submitAnswer, Ctx.skipToGeneration, Ctx.refinePrompt,
          Ctx.getCurrentQuestion, Ctx.getFinalPrompt, Ctx.getSuggestions,
          Ctx.toggleSuggestion, selectCategory_uses_durable api st sid category idea hstor,
          selectCategoryMain, initializeSession, hsid,
          h1, h2, h3, h4, h5, h6, h7, h8, h9, h10, h11, h12, handleError]

/-- C4 counterexample: toggleSuggestion with a failing backend call
stores the message but resolves normally with unit instead of
rethrowing the error to its caller. -/
theorem c4_counterexample :
    (Ctx.toggleSuggestion apiFail stateWithSid "neon lights").2.2 = Except.ok () ∧
    (Ctx.toggleSuggestion apiFail stateWithSid "neon lights").1.error = some "boom" :=
  ⟨rfl, rfl⟩

/-- C4 witness: failing backend made concrete. -/
theorem c4_witness :
    (Ctx.saveVisualSettings apiFail stateWithSid
        { color_palette := none, aspect_ratio := none,
          camera_settings := none, image_purpose := none }).2.2 = Except.error "boom" ∧
    (Ctx.getSuggestions apiFail stateWithSid 0).2.2 = Except.ok [] := by
  have h := c4_error_handling apiFail stateWithSid "s1" "boom"
    { color_palette := none, aspect_ratio := none,
      camera_settings := none, image_purpose := none }
    "Logo" "an idea" "an answer" "make it shorter" "chip" none 0
    rfl rfl rfl rfl rfl rfl rfl rfl rfl rfl rfl rfl rfl rfl
  obtain ⟨⟨_, hsave⟩, _, _, _, _, _, _, _, ⟨_, hsug⟩, _, _, _⟩ := h
  exact ⟨hsave, hsug⟩

/-- C5, amended: with a session attached, the guarded mutating actions
and initializeSession write the loading flag exactly twice, true then
false, and end with it false on every backend outcome; the main phase
of selectCategory does the same once a session id is in hand; but
toggleSuggestion never writes the flag and leaves it as it was. -/
theorem c5_loading_flag (api : Api) (st : StoreState) (sid : String)
    (settings : VisualSettings) (category idea answer instruction suggestion llm : String)
    (vs : Option VisualSettings)
    (hsid : st.sessionId = some sid) :
    (loadingEvents (Ctx.saveVisualSettings api st settings).2.1 = [true, false] ∧
     (Ctx.saveVisualSettings api st settings).1.isLoading = false) ∧
    (loadingEvents (Ctx.generateQuickPrompt api st).2.1 = [true, false] ∧
     (Ctx.generateQuickPrompt api st).1.isLoading = false) ∧
    (loadingEvents (Ctx.startChat api st category idea vs).2.1 = [true, false] ∧
     (Ctx.startChat api st category idea vs).1.isLoading = false) ∧
    (loadingEvents (Ctx.submitAnswer api st answer).2.1 = [true, false] ∧
     (Ctx.submitAnswer api st answer).1.isLoading = false) ∧
    (loadingEvents (Ctx.skipToGeneration api st).2.1 = [true, false] ∧
     (Ctx.skipToGeneration api st).1.isLoading = false) ∧
    (loadingEvents (Ctx.refinePrompt api st instruction).2.1 = [true, false] ∧
     (Ctx.refinePrompt api st instruction).1.isLoading = false) ∧
    (loadingEvents (initializeSession api st llm).2 = [true, false] ∧
     (initializeSession api st llm).1.isLoading = false) ∧
    (loadingEvents (selectCategoryMain api st sid category idea).2 = [true, false] ∧
     (selectCategoryMain api st sid category idea).1.isLoading = false) ∧
    (loadingEvents (Ctx.toggleSuggestion api st suggestion).2.1 = [] ∧
     (Ctx.toggleSuggestion api st suggestion).1.isLoading = st.isLoading) := by
  refine ⟨?_, ?_, ?_, ?_, ?_, ?_, ?_,
    ⟨(selectCategoryMain_spec api st sid category idea).2.2.2.1,
     (selectCategoryMain_spec api st sid category idea).2.2.2.2⟩, ?_⟩
  · rcases h : api.saveVisualSettings sid settings with e | u <;>
      simp [Ctx.saveVisualSettings, hsid, h, loadingEvents_append, loadingEvents_setLoading,
            loadingEvents_api, loadingEvents_storageSetSession, loadingEvents_nil,
            refreshSession_events, handleError]
  · rcases h : api.generateQuickPrompt sid with e | u <;>
      simp [Ctx.generateQuickPrompt, hsid, h, loadingEvents_append, loadingEvents_setLoading,
            loadingEvents_api, loadingEvents_storageSetSession, loadingEvents_nil,
            refreshSession_events, handleError]
  · rcases h : api.startChat sid category idea vs with e | u <;>
      simp [Ctx.startChat, hsid, h, loadingEvents_append, loadingEvents_setLoading,
            loadingEvents_api, loadingEvents_storageSetSession, loadingEvents_nil,
            refreshSession_events, handleError]
  · rcases h : api.submitAnswer sid answer with e | u <;>
      simp [Ctx.submitAnswer, hsid, h, loadingEvents_append, loadingEvents_setLoading,
            loadingEvents_api, loadingEvents_storageSetSession, loadingEvents_nil,
            refreshSession_events, handleError]
  · rcases h : api.skipToGeneration sid with e | u <;>
      simp [Ctx.skipToGeneration, hsid, h, loadingEvents_append, loadingEvents_setLoading,
            loadingEvents_api, loadingEvents_storageSetSession, loadingEvents_nil,
            refreshSession_events, handleError]
  · rcases h : api.refinePrompt sid instruction with e | u <;>
      simp [Ctx.refinePrompt, hsid, h, loadingEvents_append, loadingEvents_setLoading,
            loadingEvents_api, loadingEvents_storageSetSession, loadingEvents_nil,
            refreshSession_events, handleError]
  · rcases h : api.createSession llm (st.user.map User.id) with e | u <;>
      simp [initializeSession, h, loadingEvents_append, loadingEvents_setLoading,
            loadingEvents_api, loadingEvents_storageSetSession, loadingEvents_nil,
            refreshSession_events, handleError]
  · rcases h : api.toggleSuggestion sid suggestion with e | tg <;>
      simp [Ctx.toggleSuggestion, hsid, h, loadingEvents_api, loadingEvents_nil, handleError]

/-- C5 counterexample: a successful toggleSuggestion run on an attached
session produces a trace with no loading-flag write at all, so the flag
is never set true on entry. -/
theorem c5_counterexample :
    (Ctx.toggleSuggestion apiOk stateWithSid "neon").2.1 =
      [Event.api (ApiCall.toggleSuggestion "s1" "neon" "toggle")] := by
  decide

/-- C5 witness: concrete runs of a guarded action and of the flag-free
toggleSuggestion. -/
theorem c5_witness :
    loadingEvents (Ctx.saveVisualSettings apiOk stateWithSid
      { color_palette := none, aspect_ratio := none,
        camera_settings := none, image_purpose := none }).2.1 = [true, false] ∧
    loadingEvents (Ctx.toggleSuggestion apiOk stateWithSid "chip").2.1 = [] := by
  have h := c5_loading_flag apiOk stateWithSid "s1"
    { color_palette := none, aspect_ratio := none,
      camera_settings := none, image_purpose := none }
    "Logo" "an idea" "an answer" "make it shorter" "chip" "Claude" none rfl
  obtain ⟨⟨hsave, _⟩, _, _, _, _, _, _, _, ⟨htog, _⟩⟩ := h
  exact ⟨hsave, htog⟩

/-- C6, amended: on success every mutating action except
toggleSuggestion re-fetches the session right after its backend call
and before returning, as the exact traces show; toggleSuggestion issues
only its toggle call and never re-fetches. -/
theorem c6_refresh_after_mutation (api : Api) (st : StoreState) (sid : String)
    (settings : VisualSettings) (category idea answer instruction suggestion llm : String)
    (vs : Option VisualSettings) (r : CreateSessionResp) (q : QuickPromptResp)
    (a1 a2 : AnswerResp) (rp : RefineResp)
    (hsid : st.sessionId = some sid)
    (h1 : api.saveVisualSettings sid settings = .ok ())
    (h2 : api.generateQuickPrompt sid = .ok q)
    (h3 : api.startChat sid category idea vs = .ok ())
    (h4 : api.submitAnswer sid answer = .ok a1)
    (h5 : api.skipToGeneration sid = .ok a2)
    (h6 : api.refinePrompt sid instruction = .ok rp)
    (h7 : api.selectCategory sid category idea = .ok ())
    (h8 : api.createSession llm (st.user.map User.id) = .ok r) :
    (Ctx.saveVisualSettings api st settings).2.1 =
      [.setLoading true, .api (.saveVisualSettings sid settings),
       .api (.getSession sid), .setLoading false] ∧
    (Ctx.generateQuickPrompt api st).2.1 =
      [.setLoading true, .api (.generateQuickPrompt sid),
       .api (.getSession sid), .setLoading false] ∧
    (Ctx.startChat api st category idea vs).2.1 =
      [.setLoading true, .api (.startChat sid category idea vs),
       .api (.getSession sid), .setLoading false] ∧
    (Ctx.submitAnswer api st answer).2.1 =
      [.setLoading true, .api (.submitAnswer sid answer),
       .api (.getSession sid), .setLoading false] ∧
    (Ctx.skipToGeneration api st).2.1 =
      [.setLoading true, .api (.skipToGeneration sid),
       .api (.getSession sid), .setLoading false] ∧
    (Ctx.refinePrompt api st instruction).2.1 =
      [.setLoading true, .api (.refinePrompt sid instruction),
       .api (.getSession sid), .setLoading false] ∧
    (selectCategoryMain api st sid category idea).2 =
      [.setLoading true, .api (.selectCategory sid category idea),
       .api (.getSession sid), .setLoading false] ∧
    (initializeSession api st llm).2 =
      [.setLoading true, .api (.createSession llm (st.user.map User.id)),
       .storageSetSession r.session_id, .api (.getSession r.session_id),
       .setLoading false] ∧
    (Ctx.toggleSuggestion api st suggestion).2.1 =
      [.api (.toggleSuggestion sid suggestion "toggle")] := by
  refine ⟨?_, ?_, ?_, ?_, ?_, ?_, ?_, ?_, ?_⟩
  · simp [Ctx.saveVisualSettings, hsid, h1, refreshSession_trace_cur]
  · simp [Ctx.generateQuickPrompt, hsid, h2, refreshSession_trace_cur]
  · simp [Ctx.startChat, hsid, h3, refreshSession_trace_cur]
  · simp [Ctx.submitAnswer, hsid, h4, refreshSession_trace_cur]
  · simp [Ctx.skipToGeneration, hsid, h5, refreshSession_trace_cur]
  · simp [Ctx.refinePrompt, hsid, h6, refreshSession_trace_cur]
  · simp [selectCategoryMain, h7, refreshSession_trace_some]
  · simp [initializeSession, h8, refreshSession_trace_some]
  · rcases h : api.toggleSuggestion sid suggestion with e | tg <;>
      simp [Ctx.toggleSuggestion, hsid, h]

/-- C6 counterexample: a successful toggleSuggestion run never issues
the re-fetch of the session that the claim demands of every mutating
action. -/
theorem c6_counterexample :
    Event.api (ApiCall.getSession "s1") ∉
      (Ctx.toggleSuggestion apiOk stateWithSid "crisp shadows").2.1 := by
  decide

/-- C6 witness: concrete successful runs, one that refreshes and the
toggle that does not. -/
theorem c6_witness :
    (Ctx.saveVisualSettings apiOk stateWithSid
      { color_palette := none, aspect_ratio := none,
        camera_settings := none, image_purpose := none }).2.1 =
      [.setLoading true,
       .api (.saveVisualSettings "s1"
         { color_palette := none, aspect_ratio := none,
           camera_settings := none, image_purpose := none }),
       .api (.getSession "s1"), .setLoading false] ∧
    (Ctx.toggleSuggestion apiOk stateWithSid "soft light").2.1 =
      [.api (.toggleSuggestion "s1" "soft light" "toggle")] := by
  have h := c6_refresh_after_mutation apiOk stateWithSid "s1"
    { color_palette := none, aspect_ratio := none,
      camera_settings := none, image_purpose := none }
    "Logo" "an idea" "an answer" "make it shorter" "soft light" "Claude" none
    { session_id := "s1" } { final_prompt := "a prompt" }
    { success := true, next_question := none,
      should_generate_prompt := none, final_prompt := none }
    { success := true, next_question := none,
      should_generate_prompt := none, final_prompt := none }
    { refined_prompt := "refined" }
    rfl rfl rfl rfl rfl rfl rfl rfl rfl
  obtain ⟨hsave, _, _, _, _, _, _, _, htog⟩ := h
  exact ⟨hsave, htog⟩

/-- C7, amended: every client method that goes through request carries
the bearer header exactly when a user id can be read from the cached
slot, and omits it otherwise; uploadFile bypasses request and never
attaches an Authorization header at all. -/
theorem c7_bearer_header (parse : String → Option StoredUser) (st : LocalStorage) :
    (∀ uid, getUserId parse st = some uid →
        requestHeaders parse st [] =
          [("Content-Type", "application/json"), ("Authorization", "Bearer " ++ uid)]) ∧
    (getUserId parse st = none →
        requestHeaders parse st [] = [("Content-Type", "application/json")]) ∧
    (∀ baseUrl sid, (uploadFileRequest baseUrl sid).headers = []) := by
  refine ⟨?_, ?_, fun _ _ => rfl⟩
  · intro uid h
    simp [requestHeaders, h]
  · intro h
    simp [requestHeaders, h]

/-- C7 counterexample: with a cached user whose id parses to u1, the
upload request still carries no Authorization header, so the claim
fails for the file-upload method. -/
theorem c7_counterexample :
    getUserId (fun _ => some { id := some "u1" })
      { user := some "cached-user", session_id := none } = some "u1" ∧
    ("Authorization", "Bearer " ++ "u1") ∉
      (uploadFileRequest "http://localhost:8000" "s1").headers :=
  ⟨rfl, by simp [uploadFileRequest]⟩

/-- C7 witness: concrete cached user and the header it produces. -/
theorem c7_witness :
    requestHeaders (fun _ => some { id := some "u9" })
      { user := some "cached-user", session_id := none } [] =
      [("Content-Type", "application/json"), ("Authorization", "Bearer " ++ "u9")] :=
  (c7_bearer_header (fun _ => some { id := some "u9" })
    { user := some "cached-user", session_id := none }).1 "u9" rfl

/-- C8, amended: the CategorySelector continue handler rejects a
nonempty idea that trims to fewer than 10 characters before any
network call; the GeneratePanel generate handler checks only that the
idea is nonempty and forwards any nonempty idea, of any length, to the
store; the landing-page handler submits a generated placeholder that is
always at least 10 characters long. -/
theorem c8_short_idea_guard (category idea prompt : String)
    (hne : jsTrim idea ≠ "") (hshort : (jsTrim idea).length < 10)
    (hpne : jsTrim prompt ≠ "") :
    handleContinue (some category) idea = ContinueResult.rejectedTooShort ∧
    handleGenerate prompt (some category) = GenerateOutcome.proceeds category prompt ∧
    10 ≤ (placeholderIdea category).length := by
  refine ⟨?_, ?_, ?_⟩
  · simp [handleContinue, hne, hshort]
  · simp [handleGenerate, hpne]
  · unfold placeholderIdea
    rw [String.length_append, String.length_append]
    have hp : "Create a ".length = 9 := by decide
    have hs : " style image".length = 12 := by decide
    rw [hp, hs]
    omega

/-- C8 counterexample: the nine-character idea tiny idea passes the
GeneratePanel guards and reaches the store selectCategory, which then
issues backend calls, so a short idea is not rejected before a network
call on this path. -/
theorem c8_counterexample :
    (jsTrim "tiny idea").length < 10 ∧
    handleGenerate "tiny idea" (some "Logo") =
      GenerateOutcome.proceeds "Logo" "tiny idea" ∧
    (Ctx.selectCategory apiOk stateWithSid "Logo" "tiny idea").2 ≠ [] := by
  refine ⟨by decide, by decide, by decide⟩

/-- C8 witness: a concrete nine-character idea on both handlers. -/
theorem c8_witness :
    handleContinue (some "Logo") "short one" = ContinueResult.rejectedTooShort ∧
    handleGenerate "a red car" (some "Logo") =
      GenerateOutcome.proceeds "Logo" "a red car" := by
  have h := c8_short_idea_guard "Logo" "short one" "a red car"
    (by decide) (by decide) (by decide)
  exact ⟨h.1, h.2.1⟩

/-- C9, amended: in the single-page wizard the start-new transition
issues exactly one call, saving the four visual-settings fields as
undefined, never deletes the session, and returns to the landing step;
on the routed result page the start-new handler issues no backend call
at all and only navigates home. -/
theorem c9_start_new (sid : String) :
    homeHandleStartNew (some sid) =
      ([ApiCall.saveVisualSettings sid
          { color_palette := none, aspect_ratio := none,
            camera_settings := none, image_purpose := none }], Step.landing) ∧
    (∀ s, ApiCall.deleteSession s ∉ (homeHandleStartNew (some sid)).1) ∧
    resultHandleStartNew = ([], "/") := by
  refine ⟨rfl, ?_, rfl⟩
  intro s
  simp [homeHandleStartNew]

/-- C9 counterexample: the routed result-page start-new handler issues
no visual-settings save at all, so the claim that the final-to-landing
transition clears the four fields fails on it. -/
theorem c9_counterexample :
    ¬ ∃ (sid : String) (s : VisualSettings),
        ApiCall.saveVisualSettings sid s ∈ resultHandleStartNew.1 := by
  simp [resultHandleStartNew]

/-- C10, confirmed: an absent cached-user slot, or one whose content
does not parse, yields no user id, so the headers carry no bearer
credential, and the value returned or thrown by request is the same
whatever the cached slots hold: no request fails because the cached
identity is malformed. -/
theorem c10_malformed_identity (parse : String → Option StoredUser)
    (s : String) (sid : Option String) (hparse : parse s = none) :
    getUserId parse { user := none, session_id := sid } = none ∧
    getUserId parse { user := some s, session_id := sid } = none ∧
    requestHeaders parse { user := some s, session_id := sid } [] =
      [("Content-Type", "application/json")] ∧
    ∀ (baseUrl endpoint : String) (extra : List (String × String))
      (resp : FetchResponse) (br1 br2 : Browser),
      (request parse baseUrl br1 endpoint extra resp).2.2 =
        (request parse baseUrl br2 endpoint extra resp).2.2 := by
  refine ⟨rfl, ?_, ?_, ?_⟩
  · simp [getUserId, hparse]
  · simp [requestHeaders, getUserId, hparse]
  · intro baseUrl endpoint extra resp br1 br2
    unfold request handleResponse
    split_ifs <;> rfl

/-- C10 witness: a concrete slot content that no parser accepts. -/
theorem c10_witness :
    getUserId (fun _ => none) { user := some "not json", session_id := none } = none ∧
    requestHeaders (fun _ => none) { user := some "not json", session_id := none } [] =
      [("Content-Type", "application/json")] := by
  have h := c10_malformed_identity (fun _ => none) "not json" none rfl
  exact ⟨h.2.1, h.2.2.1⟩

end Genfy
